/-
Verification of the Puerto Vallarta flight tracker normalization pipeline.

The repository holds three alternate fetcher scripts for the same site:
  * an AviationStack REST fetcher (the variant embedded below with the
    suffix AS: processFlights, normalizeStatus, its main and saveEmptyData);
  * a FlightAware page scraper (suffix Scrape: the in-page row extraction,
    its free-text status cleanup and getAirlineName);
  * a FlightAware AeroAPI fetcher (suffix Aero: processFlights with the
    boolean-flag status machine, the today filter, the sort, its main and
    saveEmptyData).

JavaScript strings are modelled as Lean String, nullable values as Option,
and JS truthiness of a string value (null / undefined / empty string are
falsy) by the predicate truthy below.  A JS object field that can be
absent or null is an Option field; an object literal that omits a key is
modelled with the field set to none.  String primitives (split, trim,
toLowerCase, comparison) are modelled on the character list of the string,
which agrees with the JS index-based semantics on these ASCII inputs.
A stable Array.prototype.sort with the comparator
(a, b) => a.localeCompare(b) is modelled by List.insertionSort on the
pulled-back total preorder, whose result is the unique stable sort;
localeCompare is taken to be ordinal comparison, which it is on the
ASCII timestamp strings this script compares.
-/
import Mathlib

/-- JS truthiness of a nullable string: null, undefined and "" are falsy. -/
def truthy : Option String → Bool
  | none => false
  | some s => s ≠ ""

/-- JS `a || b` on nullable strings: keep `a` when truthy, else `b` as-is. -/
def jsOr (a b : Option String) : Option String :=
  if truthy a then a else b

/-- JS `a || d` with a string literal default `d`. -/
def jsOrD (a : Option String) (d : String) : String :=
  match a with
  | some s => if s = "" then d else s
  | none => d

/-- Ordinal (code-point) comparison of character lists: the order JS
string comparison induces on the ASCII strings handled here. -/
def charListLe : List Char → List Char → Bool
  | [], _ => true
  | _ :: _, [] => false
  | c :: cs, d :: ds => if c < d then true else if d < c then false else charListLe cs ds

/-- The canonical Flight record produced by every variant (README data model). -/
structure Flight where
  flightNumber : String
  airline : String
  airlineCode : String
  origin : Option String
  originCode : Option String
  destination : Option String
  destinationCode : Option String
  scheduled : Option String
  estimated : Option String
  actual : Option String
  status : String
  terminal : Option String
  gate : Option String
deriving DecidableEq, Repr

/-- A raw FlightAware AeroAPI flight object, restricted to the fields the
AeroAPI variant of processFlights reads.  Nested access such as
`flight.origin?.name` is flattened to `origin_name`. -/
structure AeroRaw where
  ident_iata : Option String := none
  ident : Option String := none
  operator_name : Option String := none
  operator : Option String := none
  cancelled : Bool := false
  diverted : Bool := false
  actual_on : Option String := none
  actual_off : Option String := none
  estimated_on : Option String := none
  estimated_off : Option String := none
  scheduled_on : Option String := none
  scheduled_off : Option String := none
  origin_name : Option String := none
  origin_city : Option String := none
  origin_code_iata : Option String := none
  origin_code : Option String := none
  destination_name : Option String := none
  destination_city : Option String := none
  destination_code_iata : Option String := none
  destination_code : Option String := none
  arrival_terminal : Option String := none
  departure_terminal : Option String := none
  arrival_gate : Option String := none
  departure_gate : Option String := none
deriving DecidableEq, Repr

/-- The per-record mapping of the AeroAPI variant of processFlights
(fetch-flights.js): status machine over the cancelled/diverted flags and
the actual/estimated timestamps, then the field-by-field object literal. -/
def mapAeroFlight (ty : String) (flight : AeroRaw) : Flight :=
  let isArrival := ty == "arrival"
  let status :=
    if flight.cancelled then "Cancelled"
    else if flight.diverted then "Diverted"
    else if truthy flight.actual_on || truthy flight.actual_off then
      (if isArrival then "Landed" else "Departed")
    else if truthy flight.estimated_on || truthy flight.estimated_off then "En Route"
    else "Scheduled"
  { flightNumber := jsOrD (jsOr flight.ident_iata flight.ident) "—"
    airline := jsOrD (jsOr flight.operator_name flight.operator) "—"
    airlineCode := jsOrD flight.operator ""
    origin := if isArrival then
        some (jsOrD (jsOr flight.origin_name flight.origin_city) "Unknown")
      else none
    originCode := if isArrival then
        some (jsOrD (jsOr flight.origin_code_iata flight.origin_code) "")
      else none
    destination := if !isArrival then
        some (jsOrD (jsOr flight.destination_name flight.destination_city) "Unknown")
      else none
    destinationCode := if !isArrival then
        some (jsOrD (jsOr flight.destination_code_iata flight.destination_code) "")
      else none
    scheduled := if isArrival then flight.scheduled_on else flight.scheduled_off
    estimated := if isArrival then flight.estimated_on else flight.estimated_off
    actual := if isArrival then flight.actual_on else flight.actual_off
    status := status
    terminal := if isArrival then flight.arrival_terminal else flight.departure_terminal
    gate := if isArrival then flight.arrival_gate else flight.departure_gate }

/-- JS `s.split(sep)[0]` for the one-character separator used by the source:
the part of `s` before its first T. -/
def datePart (s : String) : String :=
  String.mk (s.data.takeWhile (fun c => c ≠ 'T'))

/-- The today filter of the AeroAPI variant:
`if (!flight.scheduled) return false; return flight.scheduled.split(..)[0] === today`. -/
def keepTodayAero (today : String) (flight : Flight) : Bool :=
  match flight.scheduled with
  | none => false
  | some s => if s = "" then false else datePart s == today

/-- The sort key `(x.scheduled || "")` used by the AeroAPI comparator. -/
def schedKey (f : Flight) : String := f.scheduled.getD ""

/-- The preorder induced by the AeroAPI sort comparator
`(a.scheduled || "").localeCompare(b.scheduled || "")`. -/
def schedLe (a b : Flight) : Prop := charListLe (schedKey a).data (schedKey b).data = true

instance : DecidableRel schedLe := fun a b =>
  inferInstanceAs (Decidable (_ = true))

theorem charListLe_total : ∀ a b : List Char, charListLe a b = true ∨ charListLe b a = true
  | [], _ => Or.inl rfl
  | _ :: _, [] => Or.inr rfl
  | c :: cs, d :: ds => by
    rcases lt_trichotomy c d with h | h | h
    · left; simp [charListLe, h]
    · subst h
      rcases charListLe_total cs ds with h2 | h2 <;> simp [charListLe, h2, lt_irrefl]
    · right; simp [charListLe, h]

theorem charListLe_trans : ∀ a b c : List Char,
    charListLe a b = true → charListLe b c = true → charListLe a c = true
  | [], _, _, _, _ => rfl
  | _ :: _, [], _, h, _ => by simp [charListLe] at h
  | _ :: _, _ :: _, [], _, h2 => by simp [charListLe] at h2
  | a :: as, b :: bs, c :: cs, h, h2 => by
    simp only [charListLe] at h h2 ⊢
    rcases lt_trichotomy a b with hab | hab | hab
    · rcases lt_trichotomy b c with hbc | hbc | hbc
      · simp [lt_trans hab hbc]
      · subst hbc; simp [hab]
      · simp [hbc, not_lt_of_lt hbc] at h2
    · subst hab
      rcases lt_trichotomy a c with hac | hac | hac
      · simp [hac]
      · subst hac
        simp only [lt_irrefl, if_false] at h h2 ⊢
        exact charListLe_trans _ _ _ h h2
      · simp [hac, not_lt_of_lt hac] at h2
    · simp [hab, not_lt_of_lt hab] at h
  termination_by a => a.length

instance : IsTotal Flight schedLe := ⟨fun a b => charListLe_total _ _⟩

instance : IsTrans Flight schedLe := ⟨fun _ _ _ h h2 => charListLe_trans _ _ _ h h2⟩

/-- The AeroAPI variant of processFlights:
map to clean records, keep only flights whose scheduled date prefix is
today, then stable-sort by the scheduled string. -/
def processFlightsAero (flights : List AeroRaw) (ty : String) (today : String) :
    List Flight :=
  List.insertionSort schedLe
    ((flights.map (mapAeroFlight ty)).filter (keepTodayAero today))

example :
    processFlightsAero
      [{ ident_iata := some "AM123", scheduled_on := some "2026-10-12T08:00:00Z" }]
      "arrival" "2026-10-12" ≠ [] := by decide

/-- A raw AviationStack flight object, restricted to the fields the
AviationStack variant of processFlights reads; nested access such as
`flight.departure?.airport` is flattened to `dep_airport`. -/
structure ASRaw where
  flight_date : Option String := none
  flight_status : Option String := none
  flight_iata : Option String := none
  flight_icao : Option String := none
  airline_name : Option String := none
  airline_iata : Option String := none
  airline_icao : Option String := none
  dep_airport : Option String := none
  dep_iata : Option String := none
  dep_scheduled : Option String := none
  dep_estimated : Option String := none
  dep_actual : Option String := none
  dep_terminal : Option String := none
  dep_gate : Option String := none
  arr_airport : Option String := none
  arr_iata : Option String := none
  arr_scheduled : Option String := none
  arr_estimated : Option String := none
  arr_actual : Option String := none
  arr_terminal : Option String := none
  arr_gate : Option String := none
deriving DecidableEq, Repr

/-- Lowercase an ASCII string the way JS toLowerCase does on these inputs. -/
def strLower (s : String) : String :=
  String.mk (s.data.map Char.toLower)

/-- Capitalize the first character, leaving the rest unchanged: JS
`status.charAt(0).toUpperCase() + status.slice(1)`. -/
def capFirst (s : String) : String :=
  match s.data with
  | [] => ""
  | c :: cs => String.mk (c.toUpper :: cs)

/-- The exact-match status table of the AviationStack normalizeStatus. -/
def statusMapAS : List (String × String) :=
  [("scheduled", "Scheduled"), ("active", "En Route"), ("landed", "Landed"),
   ("cancelled", "Cancelled"), ("incident", "Incident"), ("diverted", "Diverted"),
   ("delayed", "Delayed")]

/-- The AviationStack normalizeStatus: falsy input gives Scheduled, a
lowercased exact table match gives the mapped value, anything else is
passed through with its first letter capitalized. -/
def normalizeStatus (status : Option String) : String :=
  match status with
  | none => "Scheduled"
  | some s =>
    if s = "" then "Scheduled"
    else
      match statusMapAS.lookup (strLower s) with
      | some v => v
      | none => capFirst s

/-- The per-record mapping of the AviationStack processFlights. -/
def mapASFlight (ty : String) (flight : ASRaw) : Flight :=
  let isArrival := ty == "arrival"
  { flightNumber := jsOrD (jsOr flight.flight_iata flight.flight_icao) "N/A"
    airline := jsOrD flight.airline_name "Unknown Airline"
    airlineCode := jsOrD (jsOr flight.airline_iata flight.airline_icao) ""
    origin := if isArrival then some (jsOrD flight.dep_airport "Unknown") else none
    originCode := if isArrival then some (jsOrD flight.dep_iata "") else none
    destination := if !isArrival then some (jsOrD flight.arr_airport "Unknown") else none
    destinationCode := if !isArrival then some (jsOrD flight.arr_iata "") else none
    scheduled := if isArrival then jsOr flight.arr_scheduled none
      else jsOr flight.dep_scheduled none
    estimated := if isArrival then jsOr flight.arr_estimated none
      else jsOr flight.dep_estimated none
    actual := if isArrival then jsOr flight.arr_actual none
      else jsOr flight.dep_actual none
    status := normalizeStatus flight.flight_status
    terminal := if isArrival then jsOr flight.arr_terminal none
      else jsOr flight.dep_terminal none
    gate := if isArrival then jsOr flight.arr_gate none else jsOr flight.dep_gate none }

/-- The AviationStack today filter `flight.flight_date === today`
(strict equality; an absent field never equals the date string). -/
def isTodayAS (today : String) (flight : ASRaw) : Bool :=
  match flight.flight_date with
  | none => false
  | some d => d == today

/-- The AviationStack variant of processFlights: filter to today by the
upstream flight_date field, map to clean records, then drop the records
whose flight number fell back to the "N/A" placeholder.  This variant
performs no sort and no deduplication. -/
def processFlightsAS (flights : List ASRaw) (ty : String) (today : String) :
    List Flight :=
  ((flights.filter (isTodayAS today)).map (mapASFlight ty)).filter
    (fun f => f.flightNumber != "N/A")

example :
    processFlightsAS
      [{ flight_date := some "2026-10-12", flight_iata := some "AM123",
         flight_status := some "active" }]
      "arrival" "2026-10-12" ≠ [] := by decide

example : normalizeStatus (some "active") = "En Route" := by decide

example : normalizeStatus (some "gate hold") = "Gate hold" := by decide

/-- JS `s.includes(pat)`: substring containment on character lists. -/
def hasSubList (pat : List Char) : List Char → Bool
  | [] => pat.isEmpty
  | c :: cs => pat.isPrefixOf (c :: cs) || hasSubList pat cs

/-- JS `s.includes(pat)` on strings. -/
def jsIncludes (s pat : String) : Bool :=
  hasSubList pat.data s.data

/-- JS whitespace characters stripped by trim on these inputs. -/
def isJsWS (c : Char) : Bool :=
  c = ' ' || c = '\t' || c = '\n' || c = '\r'

/-- JS `s.trim()`. -/
def strTrim (s : String) : String :=
  String.mk (((s.data.dropWhile isJsWS).reverse.dropWhile isJsWS).reverse)

/-- The free-text status cleanup of the scraper (scrapeFlights):
`statusCell.textContent.trim() || "Scheduled"`, then case-insensitive
substring matches tried in source order, leaving unmatched text as-is. -/
def cleanScrapeStatus (raw : String) : String :=
  let status := if strTrim raw = "" then "Scheduled" else strTrim raw
  let s := strLower status
  if jsIncludes s "landed" then "Landed"
  else if jsIncludes s "en route" || jsIncludes s "in air" || jsIncludes s "active" then
    "En Route"
  else if jsIncludes s "scheduled" then "Scheduled"
  else if jsIncludes s "cancelled" || jsIncludes s "canceled" then "Cancelled"
  else if jsIncludes s "delayed" then "Delayed"
  else if jsIncludes s "departed" then "Departed"
  else if jsIncludes s "arrived" then "Landed"
  else status

example : cleanScrapeStatus "  Landed 11:32AM  " = "Landed" := by decide

example : cleanScrapeStatus "Gate Hold" = "Gate Hold" := by decide

/-- Uppercase latin letter test for the airline-code regex `[A-Z]`. -/
def isUpperAZ (c : Char) : Bool :=
  'A' ≤ c && c ≤ 'Z'

/-- The scraper airline-code extraction
`flightNumber.match(regex of two or three leading capitals)?.[0] || ""`:
three leading capitals when present, else two, else the empty string. -/
def leadingAirlineCode (s : String) : String :=
  match s.data with
  | c0 :: c1 :: rest =>
    if isUpperAZ c0 && isUpperAZ c1 then
      match rest with
      | c2 :: _ => if isUpperAZ c2 then String.mk [c0, c1, c2] else String.mk [c0, c1]
      | [] => String.mk [c0, c1]
    else ""
  | _ => ""

/-- Uppercase an ASCII string the way JS toUpperCase does on these inputs. -/
def strUpper (s : String) : String :=
  String.mk (s.data.map Char.toUpper)

/-- The static carrier-code table of the scraper getAirlineName. -/
def airlinesScrape : List (String × String) :=
  [("AA", "American Airlines"), ("DL", "Delta Air Lines"), ("UA", "United Airlines"),
   ("WN", "Southwest Airlines"), ("AS", "Alaska Airlines"), ("B6", "JetBlue Airways"),
   ("NK", "Spirit Airlines"), ("F9", "Frontier Airlines"), ("AM", "Aeromexico"),
   ("5D", "AeroMexico Connect"), ("Y4", "Volaris"), ("VB", "VivaAerobus"),
   ("AC", "Air Canada"), ("WS", "WestJet"), ("TS", "Air Transat"),
   ("PD", "Porter Airlines"), ("SY", "Sun Country Airlines"), ("G4", "Allegiant Air"),
   ("MX", "Mexicana"), ("BA", "British Airways"), ("AF", "Air France"), ("KL", "KLM"),
   ("LH", "Lufthansa"), ("VS", "Virgin Atlantic"), ("IB", "Iberia"), ("AV", "Avianca"),
   ("CM", "Copa Airlines"), ("LA", "LATAM Airlines"), ("EK", "Emirates"),
   ("QR", "Qatar Airways"), ("JL", "Japan Airlines"), ("NH", "ANA"),
   ("KE", "Korean Air"), ("OZ", "Asiana Airlines"), ("CX", "Cathay Pacific"),
   ("SQ", "Singapore Airlines"), ("QF", "Qantas"), ("NZ", "Air New Zealand"),
   ("HA", "Hawaiian Airlines"), ("AY", "Finnair"), ("SK", "SAS"),
   ("LX", "Swiss International"), ("OS", "Austrian Airlines"),
   ("SN", "Brussels Airlines"), ("TP", "TAP Portugal"), ("EI", "Aer Lingus"),
   ("TK", "Turkish Airlines"), ("MS", "EgyptAir"), ("ET", "Ethiopian Airlines"),
   ("SA", "South African Airways"), ("QS", "SmartWings"), ("4O", "Interjet")]

/-- The scraper getAirlineName: empty code gives Unknown, a table hit on the
uppercased code gives the name, anything else echoes the code. -/
def getAirlineName (code : String) : String :=
  if code = "" then "Unknown"
  else
    match airlinesScrape.lookup (strUpper code) with
    | some v => v
    | none => code

/-- One scraped table row after DOM extraction: the flight-number text, the
counterpart-location cell text and link code, the times found in the row
text, and the raw status cell text.  The DOM queries themselves are the
modelling boundary. -/
structure ScrapeRow where
  flightNumber : String
  locationText : String
  locationCode : String
  times : List String
  statusText : String
deriving DecidableEq, Repr

/-- The scraper row-to-flight construction (the flight object literal plus
the airline enrichment): direction decides which location pair is
populated; the scraped record carries no terminal or gate keys. -/
def buildScrapeFlight (flightType : String) (row : ScrapeRow) : Flight :=
  let airlineCode := leadingAirlineCode row.flightNumber
  { flightNumber := row.flightNumber
    airline := getAirlineName airlineCode
    airlineCode := airlineCode
    origin := if flightType == "arrivals" then some row.locationText else none
    originCode := if flightType == "arrivals" then some row.locationCode else none
    destination := if flightType == "arrivals" then none else some row.locationText
    destinationCode := if flightType == "arrivals" then none else some row.locationCode
    scheduled := match row.times.head? with
      | some t => if t = "" then none else some t
      | none => none
    estimated := none
    actual := none
    status := cleanScrapeStatus row.statusText
    terminal := none
    gate := none }

/-- The scraper row filter `!flightNumber || flightNumber.length < 2`. -/
def scrapeRowKept (row : ScrapeRow) : Bool :=
  row.flightNumber ≠ "" && row.flightNumber.data.length ≥ 2

/-- The scraper table extraction over the extracted rows. -/
def scrapeFlightsFromRows (flightType : String) (rows : List ScrapeRow) : List Flight :=
  (rows.filter scrapeRowKept).map (buildScrapeFlight flightType)

/-- The airport descriptor written into every snapshot; icao is an Option
because two of the three variants build the object without that key. -/
structure Airport where
  code : String
  icao : Option String
  name : String
  city : String
  timezone : String
deriving DecidableEq, Repr

/-- The persisted snapshot document. -/
structure Snapshot where
  lastUpdated : String
  airport : Airport
  arrivals : List Flight
  departures : List Flight
  error : Option String
deriving DecidableEq, Repr

/-- The AeroAPI variant airport literal (code, icao, name, city, timezone). -/
def aeroAirport : Airport :=
  { code := "PVR", icao := some "MMPR",
    name := "Gustavo Díaz Ordaz International Airport",
    city := "Puerto Vallarta", timezone := "America/Mexico_City" }

/-- The AviationStack variant airport literal: built without an icao key. -/
def asAirport : Airport :=
  { code := "PVR", icao := none,
    name := "Gustavo Díaz Ordaz International Airport",
    city := "Puerto Vallarta", timezone := "America/Mexico_City" }

/-- The scraper variant airport literal: built without an icao key. -/
def scrapeAirport : Airport :=
  { code := "PVR", icao := none,
    name := "Gustavo Díaz Ordaz International Airport",
    city := "Puerto Vallarta", timezone := "America/Mexico_City" }

/-- The fallback document the AeroAPI saveEmptyData writes on error. -/
def aeroEmptySnapshot (now : String) : Snapshot :=
  { lastUpdated := now, airport := aeroAirport, arrivals := [], departures := [],
    error := some "Failed to fetch flight data. Will retry on next scheduled run." }

/-- The fallback document the AviationStack saveEmptyData writes on error. -/
def asEmptySnapshot (now : String) : Snapshot :=
  { lastUpdated := now, airport := asAirport, arrivals := [], departures := [],
    error := some "Failed to fetch flight data. Will retry on next scheduled run." }

/-- A successful scraper run snapshot (the flightData literal of the
scraper main); the scraper writes no error key on success. -/
def scrapeBuildSnapshot (now : String) (arrivals departures : List Flight) : Snapshot :=
  { lastUpdated := now, airport := scrapeAirport, arrivals := arrivals,
    departures := departures, error := none }

/-- The upstream payload of one successful AeroAPI request, already split
into arrivals and departures by the server. -/
structure AeroFetchOk where
  arrivals : List AeroRaw
  departures : List AeroRaw
deriving DecidableEq, Repr

/-- The AeroAPI main control flow, as a function from the ambient inputs
(the AEROAPI_KEY environment variable, the wall-clock strings, the fetch
outcome) to the document written to data/flights.json.  A falsy key makes
main call process.exit(1) before the try block: nothing is written, which
the value none records.  Any error thrown inside the try block reaches the
catch, which writes the saveEmptyData fallback. -/
def runMainAero (apiKey : Option String) (now today : String)
    (result : Except String AeroFetchOk) : Option Snapshot :=
  if truthy apiKey then
    match result with
    | Except.ok d =>
      some { lastUpdated := now, airport := aeroAirport,
             arrivals := processFlightsAero d.arrivals "arrival" today,
             departures := processFlightsAero d.departures "departure" today,
             error := none }
    | Except.error _ => some (aeroEmptySnapshot now)
  else none

/-- The AviationStack main control flow; same shape as the AeroAPI one,
with the per-direction raw lists fetched separately. -/
def runMainAS (apiKey : Option String) (now today : String)
    (result : Except String (List ASRaw × List ASRaw)) : Option Snapshot :=
  if truthy apiKey then
    match result with
    | Except.ok d =>
      some { lastUpdated := now, airport := asAirport,
             arrivals := processFlightsAS d.1 "arrival" today,
             departures := processFlightsAS d.2 "departure" today,
             error := none }
    | Except.error _ => some (asEmptySnapshot now)
  else none

/-- A JS value passed to processFlights: an array of raw records or one of
the non-array shapes the Array.isArray guard rejects. -/
inductive RawArg (α : Type) where
  | jsNull
  | jsUndefined
  | jsObject
  | jsString (s : String)
  | jsArray (l : List α)
deriving DecidableEq, Repr

/-- The AeroAPI processFlights seen at its public interface, with the
`if (!Array.isArray(flights)) return []` guard made explicit. -/
def processFlightsAeroArg (a : RawArg AeroRaw) (ty today : String) : List Flight :=
  match a with
  | RawArg.jsArray l => processFlightsAero l ty today
  | _ => []

/-- The AviationStack processFlights seen at its public interface, with the
same Array.isArray guard. -/
def processFlightsASArg (a : RawArg ASRaw) (ty today : String) : List Flight :=
  match a with
  | RawArg.jsArray l => processFlightsAS l ty today
  | _ => []

/-
Spec-side reference definitions.  These follow the wording of the spec and
of the claims (not the source) and exist to be compared with the source
embeddings above: timezone conversion of ISO-8601 timestamps to the
airport zone, parsing of a timestamp to an absolute instant, the claimed
status state machine, and the claimed free-text status priority.
-/

/-- One decimal digit of an ASCII character. -/
def charDigit (c : Char) : Option Nat :=
  if '0' ≤ c && c ≤ '9' then some (c.toNat - 48) else none

/-- Accumulator loop for digitsToNat. -/
def digitsToNatAux : List Char → Nat → Option Nat
  | [], acc => some acc
  | c :: cs, acc =>
    match charDigit c with
    | some d => digitsToNatAux cs (acc * 10 + d)
    | none => none

/-- Parse a fixed run of ASCII digits to a number. -/
def digitsToNat : List Char → Option Nat
  | [] => none
  | l => digitsToNatAux l 0

/-- Substring of `s` as a character slice (ASCII positions). -/
def charSlice (s : String) (start len : Nat) : List Char :=
  (s.data.drop start).take len

/-- Days from 1970-01-01 to the given civil date (proleptic Gregorian). -/
def daysFromCivil (y m d : Nat) : Int :=
  let yi : Int := if m ≤ 2 then (y : Int) - 1 else (y : Int)
  let era : Int := (if 0 ≤ yi then yi else yi - 399).fdiv 400
  let yoe : Int := yi - era * 400
  let mp : Int := if 2 < m then (m : Int) - 3 else (m : Int) + 9
  let doy : Int := (153 * mp + 2).fdiv 5 + (d : Int) - 1
  let doe : Int := yoe * 365 + yoe.fdiv 4 - yoe.fdiv 100 + doy
  era * 146097 + doe - 719468

/-- Civil date of a day count from 1970-01-01 (proleptic Gregorian). -/
def civilFromDays (z0 : Int) : Nat × Nat × Nat :=
  let z : Int := z0 + 719468
  let era : Int := (if 0 ≤ z then z else z - 146096).fdiv 146097
  let doe : Int := z - era * 146097
  let yoe : Int := (doe - doe.fdiv 1460 + doe.fdiv 36524 - doe.fdiv 146096).fdiv 365
  let y : Int := yoe + era * 400
  let doy : Int := doe - (365 * yoe + yoe.fdiv 4 - yoe.fdiv 100)
  let mp : Int := (5 * doy + 2).fdiv 153
  let d : Int := doy - (153 * mp + 2).fdiv 5 + 1
  let m : Int := if mp < 10 then mp + 3 else mp - 9
  ((if m ≤ 2 then y + 1 else y).toNat, m.toNat, d.toNat)

/-- Parse the offset suffix of an ISO-8601 timestamp ("Z", "+HH:MM" or
"-HH:MM") to signed minutes east of UTC. -/
def parseOffsetMinutes (s : String) : Option Int :=
  if s = "Z" then some 0
  else
    match s.data with
    | sign :: rest =>
      match digitsToNat (rest.take 2), rest.drop 2, digitsToNat (rest.drop 3) with
      | some h, colon :: _, some mi =>
        if colon = ':' then
          if sign = '+' then some ((h : Int) * 60 + (mi : Int))
          else if sign = '-' then some (-((h : Int) * 60 + (mi : Int)))
          else none
        else none
      | _, _, _ => none
    | [] => none

/-- Modelled from the spec: parse an ISO-8601 timestamp with offset
("YYYY-MM-DDTHH:MM:SS" followed by "Z" or a signed "HH:MM" offset) to
minutes since 1970-01-01T00:00Z, at minute precision. -/
def specInstantUTC (s : String) : Option Int :=
  match digitsToNat (charSlice s 0 4), digitsToNat (charSlice s 5 2), digitsToNat (charSlice s 8 2),
      digitsToNat (charSlice s 11 2), digitsToNat (charSlice s 14 2),
      parseOffsetMinutes (String.mk (s.data.drop 19)) with
  | some y, some mo, some d, some h, some mi, some off =>
    some (daysFromCivil y mo d * 1440 + (h : Int) * 60 + (mi : Int) - off)
  | _, _, _, _, _, _ => none

/-- Left-pad a number to two digits. -/
def pad2 (n : Nat) : String :=
  if n < 10 then "0" ++ toString n else toString n

/-- Format a civil date as "YYYY-MM-DD". -/
def fmtDate (y m d : Nat) : String :=
  toString y ++ "-" ++ pad2 m ++ "-" ++ pad2 d

/-- Modelled from the spec: the calendar date of an ISO-8601 timestamp
after conversion to the fixed airport timezone America/Mexico_City, which
is UTC-6 year round (Mexico abolished DST in 2022). -/
def specLocalDate (s : String) : Option String :=
  (specInstantUTC s).map fun t =>
    let localMinutes := t - 360
    let days := localMinutes.fdiv 1440
    let c := civilFromDays days
    fmtDate c.1 c.2.1 c.2.2

example : specLocalDate "2026-10-12T23:59:00-06:00" = some "2026-10-12" := by decide

example : specLocalDate "2026-10-13T02:00:00+00:00" = some "2026-10-12" := by decide

example : specLocalDate "2026-10-13T00:01:00-06:00" = some "2026-10-13" := by decide

/-- Modelled from the claim: the status state machine as the claim states
it — cancelled, then diverted, then for arrivals actual landing time
means Landed, actual departure-from-origin time means En Route, an
estimate means En Route, else Scheduled; for departures an actual
departure time means Departed, else Scheduled. -/
def specStatusBoolean (isArrival : Bool) (flight : AeroRaw) : String :=
  if flight.cancelled then "Cancelled"
  else if flight.diverted then "Diverted"
  else if isArrival then
    if truthy flight.actual_on then "Landed"
    else if truthy flight.actual_off then "En Route"
    else if truthy flight.estimated_on then "En Route"
    else "Scheduled"
  else
    if truthy flight.actual_off then "Departed" else "Scheduled"

/-- Title-case a string word by word (capitalize the first letter of each
space-separated word), as the claim asks for unmatched status text. -/
def specTitleCase (s : String) : String :=
  String.intercalate " " ((s.data.splitOn ' ').map fun w => capFirst (String.mk w))

/-- Modelled from the claim: free-text status mapping with substring
matches resolved in the claimed priority cancelled, then
en-route/active/in-air, then landed/arrived, then departed, then delayed,
then scheduled, with unmatched text title-cased and passed through. -/
def specFreeTextStatus (raw : String) : String :=
  let s := strLower raw
  if jsIncludes s "cancelled" || jsIncludes s "canceled" then "Cancelled"
  else if jsIncludes s "en route" || jsIncludes s "active" || jsIncludes s "in air" then
    "En Route"
  else if jsIncludes s "landed" || jsIncludes s "arrived" then "Landed"
  else if jsIncludes s "departed" then "Departed"
  else if jsIncludes s "delayed" then "Delayed"
  else if jsIncludes s "scheduled" then "Scheduled"
  else specTitleCase raw

example : specFreeTextStatus "Cancelled (was Scheduled)" = "Cancelled" := by decide

example : cleanScrapeStatus "Cancelled (was Scheduled)" = "Scheduled" := by decide

/-
Helper lemmas shared by the claim theorems.
-/

theorem mem_processFlightsAero {fl : List AeroRaw} {ty today : String} {f : Flight} :
    f ∈ processFlightsAero fl ty today ↔
      f ∈ (fl.map (mapAeroFlight ty)).filter (keepTodayAero today) := by
  unfold processFlightsAero
  exact List.mem_insertionSort schedLe

theorem keep_of_mem_processFlightsAero {fl : List AeroRaw} {ty today : String}
    {f : Flight} (h : f ∈ processFlightsAero fl ty today) :
    keepTodayAero today f = true :=
  List.of_mem_filter (mem_processFlightsAero.mp h)

theorem mem_processFlightsAero_of_keep {fl : List AeroRaw} {ty today : String}
    {r : AeroRaw} (hr : r ∈ fl) (hk : keepTodayAero today (mapAeroFlight ty r) = true) :
    mapAeroFlight ty r ∈ processFlightsAero fl ty today :=
  mem_processFlightsAero.mpr
    (List.mem_filter.mpr ⟨List.mem_map_of_mem (mapAeroFlight ty) hr, hk⟩)

theorem exists_raw_of_mem_processFlightsAero {fl : List AeroRaw} {ty today : String}
    {f : Flight} (h : f ∈ processFlightsAero fl ty today) :
    ∃ r ∈ fl, f = mapAeroFlight ty r := by
  have hf := List.mem_of_mem_filter (mem_processFlightsAero.mp h)
  rcases List.mem_map.mp hf with ⟨r, hr, he⟩
  exact ⟨r, hr, he.symm⟩

/-
C1: deduplication.
-/

/-- A concrete arrival already landed: highest status priority. -/
def rC1a : AeroRaw :=
  { ident_iata := some "AM123", scheduled_on := some "2026-10-12T08:00:00Z",
    actual_on := some "2026-10-12T08:05:00Z" }

/-- The same flight number again, still merely scheduled. -/
def rC1b : AeroRaw :=
  { ident_iata := some "AM123", scheduled_on := some "2026-10-12T09:00:00Z" }

/-- C1 counterexample: two raw records sharing flight number AM123, one
Landed and one Scheduled, both survive processFlights, so the output list
does not have at most one Flight per flight number: no deduplication
exists in the code. -/
theorem c1_no_dedup_counterexample :
    ¬ List.Pairwise (fun a b : Flight => a.flightNumber ≠ b.flightNumber)
      (processFlightsAero [rC1a, rC1b] "arrival" "2026-10-12") := by decide

/-- C1 (amended): processFlights performs no deduplication: the output has
exactly one Flight per raw record passing the today filter (duplicates
included), and every retained record appears in the output. -/
theorem c1_no_dedup_amended (fl : List AeroRaw) (ty today : String) :
    (processFlightsAero fl ty today).length
      = ((fl.map (mapAeroFlight ty)).filter (keepTodayAero today)).length
    ∧ ∀ r ∈ fl, keepTodayAero today (mapAeroFlight ty r) = true →
        mapAeroFlight ty r ∈ processFlightsAero fl ty today := by
  constructor
  · unfold processFlightsAero
    exact List.length_insertionSort schedLe _
  · intro r hr hk
    exact mem_processFlightsAero_of_keep hr hk

/-- C1 witness: the amended theorem applied to the duplicate pair. -/
theorem c1_no_dedup_witness :
    mapAeroFlight "arrival" rC1b ∈
      processFlightsAero [rC1a, rC1b] "arrival" "2026-10-12" :=
  (c1_no_dedup_amended [rC1a, rC1b] "arrival" "2026-10-12").2 rC1b (by decide) (by decide)

/-
C2: the today filter.
-/

/-- A record whose scheduled instant falls on 2026-10-12 in
America/Mexico_City but whose ISO string carries the next UTC date. -/
def rC2 : AeroRaw :=
  { ident_iata := some "UA790", scheduled_on := some "2026-10-13T02:00:00+00:00" }

/-- C2 counterexample: the claim says a record is retained exactly when its
scheduled timestamp converted to America/Mexico_City falls on today; for
rC2 the local date is today (2026-10-12) yet the code drops the record,
because it compares the literal date prefix of the string, not the
converted date. -/
theorem c2_day_filter_counterexample :
    ¬ ((processFlightsAero [rC2] "arrival" "2026-10-12" ≠ [])
        ↔ specLocalDate "2026-10-13T02:00:00+00:00" = some "2026-10-12") := by decide

/-- C2 (amended): a record is retained exactly when its scheduled field is
non-null and non-empty and the part of the string before the first T
equals the current Mexico City date; no timezone conversion is applied to
the record timestamp itself. -/
theorem c2_day_filter_amended (fl : List AeroRaw) (ty today : String) :
    (∀ f ∈ processFlightsAero fl ty today, keepTodayAero today f = true)
    ∧ (∀ r ∈ fl, keepTodayAero today (mapAeroFlight ty r) = true →
        mapAeroFlight ty r ∈ processFlightsAero fl ty today)
    ∧ ∀ f : Flight, keepTodayAero today f = true ↔
        ∃ s, f.scheduled = some s ∧ s ≠ "" ∧ datePart s = today := by
  refine ⟨fun f hf => keep_of_mem_processFlightsAero hf,
    fun r hr hk => mem_processFlightsAero_of_keep hr hk, fun f => ?_⟩
  match hs : f.scheduled with
  | none => simp [keepTodayAero, hs]
  | some s =>
    by_cases he : s = ""
    · simp [keepTodayAero, hs, he]
    · simp [keepTodayAero, hs, he]

/-- C2 witness: the amended theorem applied to a concrete retained record. -/
theorem c2_day_filter_witness :
    mapAeroFlight "arrival" rC1a ∈ processFlightsAero [rC1a] "arrival" "2026-10-12" :=
  (c2_day_filter_amended [rC1a] "arrival" "2026-10-12").2.1 rC1a (by decide) (by decide)

/-
C3: the boolean-flag status machine.
-/

/-- An arrival that has taken off (actual_off set) but not landed
(actual_on absent). -/
def rC3 : AeroRaw :=
  { ident_iata := some "DL500", scheduled_on := some "2026-10-12T16:00:00Z",
    actual_off := some "2026-10-12T14:00:00Z" }

/-- C3 counterexample: for an airborne arrival (actual_off set, actual_on
absent) the claimed machine gives En Route, but the code tests
actual_on and actual_off together and gives Landed. -/
theorem c3_status_machine_counterexample :
    (mapAeroFlight "arrival" rC3).status = "Landed"
    ∧ specStatusBoolean true rC3 = "En Route"
    ∧ (mapAeroFlight "arrival" rC3).status ≠ specStatusBoolean true rC3 := by decide

/-- C3 (amended): the code precedence is cancelled, then diverted, then any
actual time (on or off) giving Landed for arrivals and Departed for
departures, then any estimated time (on or off) giving En Route for both
directions, else Scheduled. -/
theorem c3_status_machine_amended (ty : String) (r : AeroRaw) :
    (r.cancelled = true → (mapAeroFlight ty r).status = "Cancelled")
    ∧ (r.cancelled = false → r.diverted = true →
        (mapAeroFlight ty r).status = "Diverted")
    ∧ (r.cancelled = false → r.diverted = false →
        (truthy r.actual_on || truthy r.actual_off) = true →
        (mapAeroFlight ty r).status = (if ty == "arrival" then "Landed" else "Departed"))
    ∧ (r.cancelled = false → r.diverted = false →
        (truthy r.actual_on || truthy r.actual_off) = false →
        (truthy r.estimated_on || truthy r.estimated_off) = true →
        (mapAeroFlight ty r).status = "En Route")
    ∧ (r.cancelled = false → r.diverted = false →
        (truthy r.actual_on || truthy r.actual_off) = false →
        (truthy r.estimated_on || truthy r.estimated_off) = false →
        (mapAeroFlight ty r).status = "Scheduled") := by
  refine ⟨fun h1 => ?_, fun h1 h2 => ?_, fun h1 h2 h3 => ?_,
    fun h1 h2 h3 h4 => ?_, fun h1 h2 h3 h4 => ?_⟩
  · simp [mapAeroFlight, h1]
  · simp [mapAeroFlight, h1, h2]
  · simp [mapAeroFlight, h1, h2, h3]
  · simp [mapAeroFlight, h1, h2, h3, h4]
  · simp [mapAeroFlight, h1, h2, h3, h4]

/-- C3 witness: the amended theorem applied to a cancelled record. -/
theorem c3_status_machine_witness :
    (mapAeroFlight "arrival" { rC3 with cancelled := true }).status = "Cancelled" :=
  (c3_status_machine_amended "arrival" { rC3 with cancelled := true }).1 rfl

/-
C4: the final ordering.
-/

/-- Scheduled 01:00 at offset -10:00, an instant of 11:00 UTC. -/
def rC4a : AeroRaw :=
  { ident_iata := some "AA100", scheduled_on := some "2026-10-12T01:00:00-10:00" }

/-- Scheduled 05:00 at offset +00:00, an instant of 05:00 UTC: earlier than
rC4a as a timestamp, later as a string. -/
def rC4b : AeroRaw :=
  { ident_iata := some "UA200", scheduled_on := some "2026-10-12T05:00:00+00:00" }

/-- C4 counterexample: both records pass the today filter, the output keeps
AA100 before UA200 (lexicographic string order), yet the scheduled instant
of AA100 is strictly later than that of UA200, so the output is not
non-decreasing in the scheduled timestamp when UTC offsets are mixed. -/
theorem c4_sort_counterexample :
    ((processFlightsAero [rC4a, rC4b] "arrival" "2026-10-12").map
        (fun f => f.flightNumber)) = ["AA100", "UA200"]
    ∧ specInstantUTC "2026-10-12T01:00:00-10:00" = some 29863380
    ∧ specInstantUTC "2026-10-12T05:00:00+00:00" = some 29863020
    ∧ (29863020 : Int) < 29863380 := by decide

/-- C4 (amended): the output is non-decreasing in the scheduled string
under ordinal string comparison (which coincides with timestamp order only
when all records share one UTC offset); absent or empty timestamps never
occur in the output because the today filter already dropped them; the
sort is a deterministic stable sort. -/
theorem c4_sort_amended (fl : List AeroRaw) (ty today : String) :
    List.Sorted schedLe (processFlightsAero fl ty today)
    ∧ ∀ f ∈ processFlightsAero fl ty today, truthy f.scheduled = true := by
  constructor
  · exact List.sorted_insertionSort schedLe _
  · intro f hf
    have hk := keep_of_mem_processFlightsAero hf
    match hs : f.scheduled with
    | none => rw [keepTodayAero, hs] at hk; exact absurd hk (by simp)
    | some s =>
      rw [keepTodayAero, hs] at hk
      by_cases he : s = ""
      · rw [he] at hk; simp at hk
      · simp [truthy, hs, he]

/-- C4 witness: the amended theorem applied to the mixed-offset pair. -/
theorem c4_sort_witness :
    truthy (mapAeroFlight "arrival" rC4a).scheduled = true :=
  (c4_sort_amended [rC4a, rC4b] "arrival" "2026-10-12").2
    (mapAeroFlight "arrival" rC4a) (by decide)

/-
C5: the degraded snapshot contract.
-/

/-- C5 counterexample: with the credential absent, main exits before the
try block and writes nothing at all, so no valid degraded snapshot is
persisted for a ConfigError. -/
theorem c5_degraded_counterexample :
    ¬ ∃ snap : Snapshot,
        runMainAero none "2026-10-12T12:00:00Z" "2026-10-12"
          (Except.error "missing credential") = some snap := by
  rintro ⟨snap, h⟩
  exact Option.noConfusion h

/-- C5 (amended): once the credential check passes, every upstream failure
makes the run persist the degraded snapshot: same shape, empty arrivals
and departures, and a non-empty error string. A missing credential
instead aborts without writing. -/
theorem c5_degraded_amended (key : Option String) (now today msg : String)
    (h : truthy key = true) :
    runMainAero key now today (Except.error msg) = some (aeroEmptySnapshot now)
    ∧ (aeroEmptySnapshot now).arrivals = []
    ∧ (aeroEmptySnapshot now).departures = []
    ∧ ∃ e, (aeroEmptySnapshot now).error = some e ∧ e ≠ "" := by
  refine ⟨?_, rfl, rfl, ?_⟩
  · simp [runMainAero, h]
  · exact ⟨_, rfl, by decide⟩

/-- C5 witness: the amended theorem applied to a present key and a concrete
upstream error. -/
theorem c5_degraded_witness :
    runMainAero (some "key") "2026-10-12T12:00:00Z" "2026-10-12"
        (Except.error "HTTP 500") = some (aeroEmptySnapshot "2026-10-12T12:00:00Z") :=
  (c5_degraded_amended (some "key") "2026-10-12T12:00:00Z" "2026-10-12" "HTTP 500"
    (by decide)).1

/-
C6: dropping records that lack a flight number.
-/

/-- When a double fallback with default `d` lands on anything other than
`d`, the value is a non-empty string taken verbatim from one of the two
source fields. -/
theorem jsOrD_jsOr_ne (a b : Option String) (d v : String)
    (hv : jsOrD (jsOr a b) d = v) (hne : v ≠ d) :
    v ≠ "" ∧ (a = some v ∨ b = some v) := by
  rcases a with _ | s
  · rcases b with _ | t
    · exact absurd hv.symm hne
    · by_cases ht : t = ""
      · subst ht
        exact absurd hv.symm hne
      · have hvt : v = t := by
          rw [← hv]; simp [jsOr, jsOrD, truthy, ht]
        subst hvt
        exact ⟨ht, Or.inr rfl⟩
  · by_cases hs : s = ""
    · subst hs
      rcases b with _ | t
      · exact absurd hv.symm hne
      · by_cases ht : t = ""
        · subst ht
          exact absurd hv.symm hne
        · have hvt : v = t := by
            rw [← hv]; simp [jsOr, jsOrD, truthy, ht]
          subst hvt
          exact ⟨ht, Or.inr rfl⟩
    · have hvs : v = s := by
        rw [← hv]; simp [jsOr, jsOrD, truthy, hs]
      subst hvs
      exact ⟨hs, Or.inl rfl⟩

/-- A raw AeroAPI record with no flight identifier at all, scheduled today. -/
def rC6 : AeroRaw := { scheduled_on := some "2026-10-12T10:00:00Z" }

/-- C6 counterexample: the AeroAPI pipeline keeps a record whose
flight-number fields are all absent, emitting the placeholder "—" instead
of excluding the record as the claim requires. -/
theorem c6_flightnumber_counterexample :
    processFlightsAero [rC6] "arrival" "2026-10-12" = [mapAeroFlight "arrival" rC6]
    ∧ (mapAeroFlight "arrival" rC6).flightNumber = "—"
    ∧ rC6.ident_iata = none ∧ rC6.ident = none := by decide

/-- C6 (amended): the AviationStack variant does satisfy the claim — every
output flight number is a non-empty identifier copied from a raw record —
while the AeroAPI variant instead retains identifier-less records with the
placeholder "—". -/
theorem c6_flightnumber_amended (fl : List ASRaw) (ty today : String) :
    (∀ f ∈ processFlightsAS fl ty today,
        f.flightNumber ≠ "" ∧ ∃ r ∈ fl,
          r.flight_iata = some f.flightNumber ∨ r.flight_icao = some f.flightNumber)
    ∧ ∀ r : AeroRaw, truthy r.ident_iata = false → truthy r.ident = false →
        (mapAeroFlight ty r).flightNumber = "—" := by
  constructor
  · intro f hf
    unfold processFlightsAS at hf
    have hne := List.of_mem_filter hf
    have hf2 := List.mem_of_mem_filter hf
    rcases List.mem_map.mp hf2 with ⟨r, hr, he⟩
    have hrfl : r ∈ fl := List.mem_of_mem_filter hr
    subst he
    have hne2 : (mapASFlight ty r).flightNumber ≠ "N/A" := by
      simpa using hne
    have := jsOrD_jsOr_ne r.flight_iata r.flight_icao "N/A"
      (mapASFlight ty r).flightNumber rfl hne2
    exact ⟨this.1, r, hrfl, this.2⟩
  · intro r h1 h2
    match hA : r.ident_iata, hB : r.ident with
    | none, none => simp [mapAeroFlight, jsOr, jsOrD, hA, hB, truthy]
    | none, some t =>
      rw [hB] at h2
      simp [truthy] at h2
      simp [mapAeroFlight, jsOr, jsOrD, hA, hB, truthy, h2]
    | some s, none =>
      rw [hA] at h1
      simp [truthy] at h1
      simp [mapAeroFlight, jsOr, jsOrD, hA, hB, truthy, h1]
    | some s, some t =>
      rw [hA] at h1
      rw [hB] at h2
      simp [truthy] at h1 h2
      simp [mapAeroFlight, jsOr, jsOrD, hA, hB, truthy, h1, h2]

/-- A raw AviationStack record carrying an IATA flight number. -/
def rC6as : ASRaw := { flight_date := some "2026-10-12", flight_iata := some "AM123" }

/-- C6 witness: the amended theorem applied to a concrete AviationStack
record. -/
theorem c6_flightnumber_witness :
    (mapASFlight "arrival" rC6as).flightNumber ≠ ""
    ∧ ∃ r ∈ [rC6as],
        r.flight_iata = some (mapASFlight "arrival" rC6as).flightNumber
        ∨ r.flight_icao = some (mapASFlight "arrival" rC6as).flightNumber :=
  (c6_flightnumber_amended [rC6as] "arrival" "2026-10-12").1
    (mapASFlight "arrival" rC6as) (by decide)

/-
C7: the free-text status mapping.
-/

/-- C7 counterexample: on text containing both a cancellation and the word
scheduled, the claimed priority gives Cancelled but the code checks the
scheduled pattern before the cancelled one and gives Scheduled; the code
also never title-cases unmatched text. -/
theorem c7_status_text_counterexample :
    cleanScrapeStatus "Cancelled (was Scheduled)" = "Scheduled"
    ∧ specFreeTextStatus "Cancelled (was Scheduled)" = "Cancelled"
    ∧ cleanScrapeStatus "Cancelled (was Scheduled)"
        ≠ specFreeTextStatus "Cancelled (was Scheduled)" := by decide

/-- C7 (amended): the scraper resolves case-insensitive substring matches in
the source order landed, then en route/in air/active, then scheduled, then
cancelled/canceled, then delayed, then departed, then arrived (mapped to
Landed); unmatched non-empty text is passed through trimmed and otherwise
verbatim (no title-casing), and empty text defaults to Scheduled. -/
theorem c7_status_text_amended (raw s : String) (hs : s = strLower (strTrim raw)) :
    (strTrim raw = "" → cleanScrapeStatus raw = "Scheduled")
    ∧ (strTrim raw ≠ "" → jsIncludes s "landed" = true → cleanScrapeStatus raw = "Landed")
    ∧ (strTrim raw ≠ "" → jsIncludes s "landed" = false →
        (jsIncludes s "en route" || jsIncludes s "in air" || jsIncludes s "active") = true →
        cleanScrapeStatus raw = "En Route")
    ∧ (strTrim raw ≠ "" → jsIncludes s "landed" = false →
        (jsIncludes s "en route" || jsIncludes s "in air" || jsIncludes s "active") = false →
        jsIncludes s "scheduled" = true → cleanScrapeStatus raw = "Scheduled")
    ∧ (strTrim raw ≠ "" → jsIncludes s "landed" = false →
        (jsIncludes s "en route" || jsIncludes s "in air" || jsIncludes s "active") = false →
        jsIncludes s "scheduled" = false →
        (jsIncludes s "cancelled" || jsIncludes s "canceled") = true →
        cleanScrapeStatus raw = "Cancelled")
    ∧ (strTrim raw ≠ "" → jsIncludes s "landed" = false →
        (jsIncludes s "en route" || jsIncludes s "in air" || jsIncludes s "active") = false →
        jsIncludes s "scheduled" = false →
        (jsIncludes s "cancelled" || jsIncludes s "canceled") = false →
        jsIncludes s "delayed" = true → cleanScrapeStatus raw = "Delayed")
    ∧ (strTrim raw ≠ "" → jsIncludes s "landed" = false →
        (jsIncludes s "en route" || jsIncludes s "in air" || jsIncludes s "active") = false →
        jsIncludes s "scheduled" = false →
        (jsIncludes s "cancelled" || jsIncludes s "canceled") = false →
        jsIncludes s "delayed" = false →
        jsIncludes s "departed" = true → cleanScrapeStatus raw = "Departed")
    ∧ (strTrim raw ≠ "" → jsIncludes s "landed" = false →
        (jsIncludes s "en route" || jsIncludes s "in air" || jsIncludes s "active") = false →
        jsIncludes s "scheduled" = false →
        (jsIncludes s "cancelled" || jsIncludes s "canceled") = false →
        jsIncludes s "delayed" = false →
        jsIncludes s "departed" = false →
        jsIncludes s "arrived" = true → cleanScrapeStatus raw = "Landed")
    ∧ (strTrim raw ≠ "" → jsIncludes s "landed" = false →
        (jsIncludes s "en route" || jsIncludes s "in air" || jsIncludes s "active") = false →
        jsIncludes s "scheduled" = false →
        (jsIncludes s "cancelled" || jsIncludes s "canceled") = false →
        jsIncludes s "delayed" = false →
        jsIncludes s "departed" = false →
        jsIncludes s "arrived" = false → cleanScrapeStatus raw = strTrim raw) := by
  subst hs
  refine ⟨fun h0 => ?_, fun h0 h1 => ?_, fun h0 h1 h2 => ?_, fun h0 h1 h2 h3 => ?_,
    fun h0 h1 h2 h3 h4 => ?_, fun h0 h1 h2 h3 h4 h5 => ?_,
    fun h0 h1 h2 h3 h4 h5 h6 => ?_, fun h0 h1 h2 h3 h4 h5 h6 h7 => ?_,
    fun h0 h1 h2 h3 h4 h5 h6 h7 => ?_⟩
  · unfold cleanScrapeStatus
    rw [h0]
    decide
  · simp [cleanScrapeStatus, h0, h1]
  · simp [cleanScrapeStatus, h0, h1, h2]
  · simp [cleanScrapeStatus, h0, h1, h2, h3]
  · simp [cleanScrapeStatus, h0, h1, h2, h3, h4]
  · simp [cleanScrapeStatus, h0, h1, h2, h3, h4, h5]
  · simp [cleanScrapeStatus, h0, h1, h2, h3, h4, h5, h6]
  · simp [cleanScrapeStatus, h0, h1, h2, h3, h4, h5, h6, h7]
  · simp [cleanScrapeStatus, h0, h1, h2, h3, h4, h5, h6, h7]

/-- C7 witness: the amended theorem applied to unmatched status text, which
is passed through verbatim. -/
theorem c7_status_text_witness :
    cleanScrapeStatus "Gate Hold B4" = "Gate Hold B4" :=
  (c7_status_text_amended "Gate Hold B4" (strLower (strTrim "Gate Hold B4"))
    rfl).2.2.2.2.2.2.2.2 (by decide) (by decide) (by decide) (by decide) (by decide)
    (by decide) (by decide) (by decide)

/-
C8: direction determines which location pair is populated.
-/

/-- C8: in every variant, an arrival Flight carries non-null origin and
originCode and null destination and destinationCode, and a departure
Flight the reverse. -/
theorem c8_direction_invariant :
    (∀ (fl : List AeroRaw) (today : String) (f : Flight),
        f ∈ processFlightsAero fl "arrival" today →
        f.origin.isSome = true ∧ f.originCode.isSome = true
          ∧ f.destination = none ∧ f.destinationCode = none)
    ∧ (∀ (fl : List AeroRaw) (today : String) (f : Flight),
        f ∈ processFlightsAero fl "departure" today →
        f.destination.isSome = true ∧ f.destinationCode.isSome = true
          ∧ f.origin = none ∧ f.originCode = none)
    ∧ (∀ (fl : List ASRaw) (today : String) (f : Flight),
        f ∈ processFlightsAS fl "arrival" today →
        f.origin.isSome = true ∧ f.originCode.isSome = true
          ∧ f.destination = none ∧ f.destinationCode = none)
    ∧ (∀ (fl : List ASRaw) (today : String) (f : Flight),
        f ∈ processFlightsAS fl "departure" today →
        f.destination.isSome = true ∧ f.destinationCode.isSome = true
          ∧ f.origin = none ∧ f.originCode = none)
    ∧ (∀ (rows : List ScrapeRow) (f : Flight),
        f ∈ scrapeFlightsFromRows "arrivals" rows →
        f.origin.isSome = true ∧ f.originCode.isSome = true
          ∧ f.destination = none ∧ f.destinationCode = none)
    ∧ (∀ (rows : List ScrapeRow) (f : Flight),
        f ∈ scrapeFlightsFromRows "departures" rows →
        f.destination.isSome = true ∧ f.destinationCode.isSome = true
          ∧ f.origin = none ∧ f.originCode = none) := by
  refine ⟨fun fl today f hf => ?_, fun fl today f hf => ?_, fun fl today f hf => ?_,
    fun fl today f hf => ?_, fun rows f hf => ?_, fun rows f hf => ?_⟩
  · rcases exists_raw_of_mem_processFlightsAero hf with ⟨r, _, he⟩
    subst he
    simp [mapAeroFlight]
  · rcases exists_raw_of_mem_processFlightsAero hf with ⟨r, _, he⟩
    subst he
    simp [mapAeroFlight]
  · unfold processFlightsAS at hf
    rcases List.mem_map.mp (List.mem_of_mem_filter hf) with ⟨r, _, he⟩
    subst he
    simp [mapASFlight]
  · unfold processFlightsAS at hf
    rcases List.mem_map.mp (List.mem_of_mem_filter hf) with ⟨r, _, he⟩
    subst he
    simp [mapASFlight]
  · unfold scrapeFlightsFromRows at hf
    rcases List.mem_map.mp hf with ⟨row, _, he⟩
    subst he
    simp [buildScrapeFlight]
  · unfold scrapeFlightsFromRows at hf
    rcases List.mem_map.mp hf with ⟨row, _, he⟩
    subst he
    simp [buildScrapeFlight]

/-- C8 witness: the invariant applied to a concrete arrival in the AeroAPI
pipeline output. -/
theorem c8_direction_invariant_witness :
    (mapAeroFlight "arrival" rC1a).origin.isSome = true
    ∧ (mapAeroFlight "arrival" rC1a).originCode.isSome = true
    ∧ (mapAeroFlight "arrival" rC1a).destination = none
    ∧ (mapAeroFlight "arrival" rC1a).destinationCode = none :=
  c8_direction_invariant.1 [rC1a] "2026-10-12" (mapAeroFlight "arrival" rC1a) (by decide)

/-
C9: the airport descriptor.
-/

/-- C9 counterexample: the scraper variant persists snapshots whose airport
descriptor is built without an icao field (and the AviationStack variant
likewise), so not every persisted snapshot carries all five fields. -/
theorem c9_airport_counterexample :
    (scrapeBuildSnapshot "2026-10-12T12:00:00Z" [] []).airport.icao = none
    ∧ asAirport.icao = none := by decide

/-- C9 (amended): every snapshot the AeroAPI variant persists carries the
full five-field descriptor (code, icao, name, city, timezone); the scraper
and AviationStack variants omit icao from theirs. -/
theorem c9_airport_amended (key : Option String) (now today : String)
    (res : Except String AeroFetchOk) (snap : Snapshot)
    (h : runMainAero key now today res = some snap) :
    snap.airport = aeroAirport
    ∧ aeroAirport.code = "PVR" ∧ aeroAirport.icao = some "MMPR"
    ∧ aeroAirport.name = "Gustavo Díaz Ordaz International Airport"
    ∧ aeroAirport.city = "Puerto Vallarta"
    ∧ aeroAirport.timezone = "America/Mexico_City" := by
  refine ⟨?_, rfl, rfl, rfl, rfl, rfl⟩
  unfold runMainAero at h
  cases hk : truthy key with
  | false =>
    rw [hk] at h
    simp at h
  | true =>
    rw [hk] at h
    cases res with
    | ok d =>
      simp only [if_true] at h
      cases Option.some.inj h
      rfl
    | error e =>
      simp only [if_true] at h
      cases Option.some.inj h
      rfl

/-- C9 witness: the amended theorem applied to a degraded AeroAPI snapshot. -/
theorem c9_airport_witness :
    (aeroEmptySnapshot "2026-10-12T12:00:00Z").airport = aeroAirport :=
  (c9_airport_amended (some "key") "2026-10-12T12:00:00Z" "2026-10-12"
    (Except.error "boom") (aeroEmptySnapshot "2026-10-12T12:00:00Z") (by decide)).1

/-
C10: totality of processFlights on non-array input.
-/

/-- C10: for every non-array argument (null, undefined, a plain object, a
string), both processFlights implementations return the empty list instead
of throwing. -/
theorem c10_nonarray_total (ty today : String) :
    (∀ a : RawArg AeroRaw, (∀ l, a ≠ RawArg.jsArray l) →
        processFlightsAeroArg a ty today = [])
    ∧ (∀ a : RawArg ASRaw, (∀ l, a ≠ RawArg.jsArray l) →
        processFlightsASArg a ty today = []) := by
  constructor <;> intro a h <;> cases a <;>
    first
      | rfl
      | exact absurd rfl (h _)

/-- C10 witness: the theorem applied to the null argument. -/
theorem c10_nonarray_witness :
    processFlightsAeroArg RawArg.jsNull "arrival" "2026-10-12" = [] :=
  (c10_nonarray_total "arrival" "2026-10-12").1 RawArg.jsNull
    (fun l h => RawArg.noConfusion h)
